import Mathlib

/-!
# Verification of the snowscrape forecast-extraction engine

Shallow embedding of `src/snowscrape/scraper.py` (snow-forecast.com scraper):
the structured forecast extractor `extract_dynamic_forecast_data`, the
per-elevation navigation/validity logic `scrape_elevation`, the export
builder `tidy_and_export`, the login routine `ensure_login`, and the
orchestration in `main`.

HTML pages and browser interactions are modelled as explicit environment
records: a parsed page is represented by the element data the Python code
actually reads out of the BeautifulSoup tree (attribute strings, nested
element texts, option-valued element lookups), and each browser step that
can fail is an oracle boolean in the environment.  Effectful routines
return, alongside their result, an explicit trace of the externally
visible actions they performed, so that temporal claims (reload counts,
skipped elevations, zero form-fills) become statements about traces.
-/

namespace Snowscrape

/-! ## Data model of the parsed forecast table

`extract_dynamic_forecast_data(soup)` reads, from the table
`table.forecast-table__table`:
  * the date row `tr[data-row=days]`: cells with class
    `forecast-table-days__cell`, from which it takes `data-date`,
    the nested day-name / day-number divs, and `colspan` (default 1);
  * the time row `tr[data-row=time]`: cells from which it takes the text
    of `span.en`, else of any `span`, else the stripped cell text;
  * ten attribute rows (`weather`, `phrases`, `wind`, `snow`, `rain`,
    `temperature-max/min/chill`, `humidity`, `freezing-level`), each an
    optional row of `td` cells.
A cell is modelled by the pieces of it the Python code inspects. -/

/-- One `td.forecast-table-days__cell` of the date row: `data-date`
(attribute lookup with default `""`), the optional nested
`div.forecast-table-days__name` / `div.forecast-table-days__date`
(stripped text when present), and the parsed `colspan` attribute
(default 1). -/
structure DateCell where
  dataDate : String
  dayName : Option String
  dayNum : Option String
  colspan : Nat
deriving Repr, DecidableEq

/-- A parsed date header, as appended to `date_headers`. -/
structure DateHeader where
  date : String
  day_name : String
  day_num : String
  colspan : Nat
deriving Repr, DecidableEq

/-- One `td` of the time row: stripped text of the nested `span.en` if that
element exists, stripped text of any nested `span` if one exists, and the
stripped text of the whole cell. -/
structure TimeCell where
  spanEn : Option String
  anySpan : Option String
  text : String
deriving Repr, DecidableEq

/-- The nested `div.snow-amount` (resp. `div.rain-amount`) of a snow/rain
cell: its `data-value` attribute (default `""`), the optional nested
value `span`, and the stripped text of the div. -/
structure AmountDiv where
  dataValue : String
  spanText : Option String
  text : String
deriving Repr, DecidableEq

/-- The nested `img.weather-icon` of a weather cell (`alt` and `src`
attributes, defaults `""`). -/
structure WeatherImg where
  alt : String
  src : String
deriving Repr, DecidableEq

/-- The nested `div.wind-icon` of a wind cell: `data-speed` attribute
(default `""`), optional tooltip div text, optional `text.wind-icon__val`
element text. -/
structure WindIcon where
  dataSpeed : String
  tooltipText : Option String
  valText : Option String
deriving Repr, DecidableEq

/-- The nested `div.level-value` of a freezing-level cell: `data-value`
attribute (default `""`) and stripped text. -/
structure LevelDiv where
  dataValue : String
  text : String
deriving Repr, DecidableEq

/-- One `td` of an attribute row, modelled by every nested element /
attribute the extractor may read from it (each attribute row only looks at
the parts relevant to it). `dataValue` and `text` are the cell's own
`data-value` attribute (default `""`) and stripped text, used by the three
temperature rows; `anySpan` is the first nested `span` (used by the
humidity row). -/
structure WeatherCell where
  img : Option WeatherImg
  phrase : Option String
  windIcon : Option WindIcon
  snowDiv : Option AmountDiv
  rainDiv : Option AmountDiv
  dataValue : String
  text : String
  anySpan : Option String
  levelDiv : Option LevelDiv
deriving Repr, DecidableEq

/-- An all-absent attribute cell (convenient base value for tests). -/
def WeatherCell.empty : WeatherCell :=
  { img := none, phrase := none, windIcon := none, snowDiv := none,
    rainDiv := none, dataValue := "", text := "", anySpan := none,
    levelDiv := none }

/-- The `weather_rows` dictionary: each of the ten fixed attribute rows is
either absent (`find` returned `None`) or a list of `td` cells. -/
structure WeatherRows where
  weather : Option (List WeatherCell)
  phrases : Option (List WeatherCell)
  wind : Option (List WeatherCell)
  snow : Option (List WeatherCell)
  rain : Option (List WeatherCell)
  temperatureMax : Option (List WeatherCell)
  temperatureMin : Option (List WeatherCell)
  temperatureChill : Option (List WeatherCell)
  humidity : Option (List WeatherCell)
  freezingLevel : Option (List WeatherCell)
deriving Repr, DecidableEq

/-- All-absent attribute rows. -/
def WeatherRows.empty : WeatherRows :=
  { weather := none, phrases := none, wind := none, snow := none,
    rain := none, temperatureMax := none, temperatureMin := none,
    temperatureChill := none, humidity := none, freezingLevel := none }

/-- The `table.forecast-table__table` element as read by the extractor:
optional date row, optional time row, and the attribute rows. -/
structure ForecastTable where
  dateRow : Option (List DateCell)
  timeRow : Option (List TimeCell)
  rows : WeatherRows
deriving Repr, DecidableEq

/-- A `period_data` record.  The Python code builds a dict with the five
mandatory keys and then conditionally adds the remaining keys; optional
fields model keys that may be absent from the dict. -/
structure PeriodData where
  date : String
  day_name : String
  day_num : String
  time_period : String
  period_index : Nat
  weather_icon : Option String := none
  weather_icon_src : Option String := none
  weather_phrase : Option String := none
  wind_speed : Option String := none
  wind_direction : Option String := none
  wind_speed_display : Option String := none
  snow_amount : Option String := none
  rain_amount : Option String := none
  temperature_max : Option String := none
  temperature_min : Option String := none
  temperature_chill : Option String := none
  humidity : Option String := none
  freezing_level : Option String := none
deriving Repr, DecidableEq

/-! ## The extractor -/

/-- The `date_headers` loop: keep a cell only when both the day-name and
day-number divs are present. -/
def parseDateHeaders (cells : List DateCell) : List DateHeader :=
  cells.filterMap fun c =>
    match c.dayName, c.dayNum with
    | some n, some d =>
        some { date := c.dataDate, day_name := n, day_num := d,
               colspan := c.colspan }
    | _, _ => none

/-- The `time_headers` loop: text of `span.en` if that element exists,
else text of any `span` if one exists, else the stripped cell text when
non-empty (an empty stripped cell contributes nothing). -/
def parseTimeHeaders (cells : List TimeCell) : List String :=
  cells.filterMap fun c =>
    match c.spanEn with
    | some t => some t
    | none =>
      match c.anySpan with
      | some t => some t
      | none => if c.text ≠ "" then some c.text else none

/-- The `'weather'` row branch: if the cell has an `img.weather-icon`, set
`weather_icon` / `weather_icon_src` from its `alt` / `src`. -/
def applyWeatherCell (pd : PeriodData) (cell : WeatherCell) : PeriodData :=
  match cell.img with
  | some i => { pd with weather_icon := some i.alt, weather_icon_src := some i.src }
  | none => pd

/-- The `'phrases'` row branch. -/
def applyPhrasesCell (pd : PeriodData) (cell : WeatherCell) : PeriodData :=
  match cell.phrase with
  | some t => { pd with weather_phrase := some t }
  | none => pd

/-- The `'wind'` row branch: `wind_speed` is always set from `data-speed` when
the icon div exists; direction and display value only when their nested
elements exist. -/
def applyWindCell (pd : PeriodData) (cell : WeatherCell) : PeriodData :=
  match cell.windIcon with
  | some w =>
    let pd := { pd with wind_speed := some w.dataSpeed }
    let pd := match w.tooltipText with
      | some t => { pd with wind_direction := some t }
      | none => pd
    match w.valText with
    | some t => { pd with wind_speed_display := some t }
    | none => pd
  | none => pd

/-- The snow/rain value policy: `data-value` attribute if non-empty, else
the nested value span's text if that element exists, else the div text. -/
def resolveAmount (d : AmountDiv) : String :=
  if d.dataValue ≠ "" then d.dataValue
  else
    match d.spanText with
    | some t => t
    | none => d.text

/-- The `'snow'` row branch. -/
def applySnowCell (pd : PeriodData) (cell : WeatherCell) : PeriodData :=
  match cell.snowDiv with
  | some d =>
    if d.dataValue ≠ "" then { pd with snow_amount := some d.dataValue }
    else
      match d.spanText with
      | some t => { pd with snow_amount := some t }
      | none => { pd with snow_amount := some d.text }
  | none => pd

/-- The `'rain'` row branch. -/
def applyRainCell (pd : PeriodData) (cell : WeatherCell) : PeriodData :=
  match cell.rainDiv with
  | some d =>
    if d.dataValue ≠ "" then { pd with rain_amount := some d.dataValue }
    else
      match d.spanText with
      | some t => { pd with rain_amount := some t }
      | none => { pd with rain_amount := some d.text }
  | none => pd

/-- The temperature value policy: cell `data-value` if non-empty, else the
cell text (the field is set in either case). -/
def resolveTemp (cell : WeatherCell) : String :=
  if cell.dataValue ≠ "" then cell.dataValue else cell.text

/-- The `'temperature-max'` row branch. -/
def applyTempMaxCell (pd : PeriodData) (cell : WeatherCell) : PeriodData :=
  if cell.dataValue ≠ "" then { pd with temperature_max := some cell.dataValue }
  else { pd with temperature_max := some cell.text }

/-- The `'temperature-min'` row branch. -/
def applyTempMinCell (pd : PeriodData) (cell : WeatherCell) : PeriodData :=
  if cell.dataValue ≠ "" then { pd with temperature_min := some cell.dataValue }
  else { pd with temperature_min := some cell.text }

/-- The `'temperature-chill'` row branch. -/
def applyTempChillCell (pd : PeriodData) (cell : WeatherCell) : PeriodData :=
  if cell.dataValue ≠ "" then { pd with temperature_chill := some cell.dataValue }
  else { pd with temperature_chill := some cell.text }

/-- The `'humidity'` row branch: set only when the cell has a nested `span`. -/
def applyHumidityCell (pd : PeriodData) (cell : WeatherCell) : PeriodData :=
  match cell.anySpan with
  | some t => { pd with humidity := some t }
  | none => pd

/-- The `'freezing-level'` row branch: `freeze_value or freeze_text`. -/
def applyFreezingCell (pd : PeriodData) (cell : WeatherCell) : PeriodData :=
  match cell.levelDiv with
  | some d =>
    { pd with freezing_level := some (if d.dataValue ≠ "" then d.dataValue else d.text) }
  | none => pd

/-- Guarded application of one attribute row: skipped when the row is
absent or has no cell at column `idx` (`if row:` / `if period_idx <
len(cells):`). -/
def applyRow (f : PeriodData → WeatherCell → PeriodData)
    (row : Option (List WeatherCell)) (idx : Nat) (pd : PeriodData) : PeriodData :=
  match row with
  | none => pd
  | some cells =>
    match cells.get? idx with
    | some cell => f pd cell
    | none => pd

/-- The `for row_name, row in weather_rows.items():` loop, in the dict's
insertion order. -/
def applyRows (rows : WeatherRows) (pd : PeriodData) (idx : Nat) : PeriodData :=
  let pd := applyRow applyWeatherCell rows.weather idx pd
  let pd := applyRow applyPhrasesCell rows.phrases idx pd
  let pd := applyRow applyWindCell rows.wind idx pd
  let pd := applyRow applySnowCell rows.snow idx pd
  let pd := applyRow applyRainCell rows.rain idx pd
  let pd := applyRow applyTempMaxCell rows.temperatureMax idx pd
  let pd := applyRow applyTempMinCell rows.temperatureMin idx pd
  let pd := applyRow applyTempChillCell rows.temperatureChill idx pd
  let pd := applyRow applyHumidityCell rows.humidity idx pd
  applyRow applyFreezingCell rows.freezingLevel idx pd

/-- One emitted `period_data` record: the five mandatory keys followed by
the attribute-row loop. -/
def mkRecord (rows : WeatherRows) (times : List String) (h : DateHeader)
    (idx : Nat) : PeriodData :=
  applyRows rows
    { date := h.date, day_name := h.day_name, day_num := h.day_num,
      time_period := times.getD idx "", period_index := idx } idx

/-- The inner `for period in range(date_header['colspan']):` loop: each
iteration emits a record and advances `period_idx` only when
`period_idx < len(time_headers)`.  Returns the emitted records together
with the final `period_idx`. -/
def emitHeader (rows : WeatherRows) (times : List String) (h : DateHeader) :
    Nat → Nat → List PeriodData × Nat
  | 0, idx => ([], idx)
  | k + 1, idx =>
    if idx < times.length then
      let rest := emitHeader rows times h k (idx + 1)
      (mkRecord rows times h idx :: rest.1, rest.2)
    else
      emitHeader rows times h k idx

/-- The outer `for date_header in date_headers:` loop, threading
`period_idx` between headers. -/
def extractLoop (rows : WeatherRows) (times : List String) :
    List DateHeader → Nat → List PeriodData
  | [], _ => []
  | h :: hs, idx =>
    let st := emitHeader rows times h h.colspan idx
    st.1 ++ extractLoop rows times hs st.2

/-- Model of `extract_dynamic_forecast_data(soup)`: empty when the forecast table
element is absent; otherwise parse headers and times (absent rows give
empty header/label lists) and run the span-expansion loop from
`period_idx = 0`. -/
def extract_dynamic_forecast_data (soup : Option ForecastTable) : List PeriodData :=
  match soup with
  | none => []
  | some t =>
    let dateHeaders := parseDateHeaders (t.dateRow.getD [])
    let timeHeaders := parseTimeHeaders (t.timeRow.getD [])
    extractLoop t.rows timeHeaders dateHeaders 0

/-- Parsed date headers of a soup (empty when the table or its date row is
absent), for stating claims. -/
def soupDateHeaders (soup : Option ForecastTable) : List DateHeader :=
  match soup with
  | none => []
  | some t => parseDateHeaders (t.dateRow.getD [])

/-- Parsed time-slot labels of a soup, for stating claims. -/
def soupTimeHeaders (soup : Option ForecastTable) : List String :=
  match soup with
  | none => []
  | some t => parseTimeHeaders (t.timeRow.getD [])

/-- Attribute rows of a soup, for stating claims. -/
def soupRows (soup : Option ForecastTable) : WeatherRows :=
  match soup with
  | none => WeatherRows.empty
  | some t => t.rows

/-- Total column span declared by a list of date headers. -/
def totalColspan (hs : List DateHeader) : Nat :=
  (hs.map (·.colspan)).sum

/-! ## Closed form of the extractor

The column-span expansion loop is characterised as an indexed map over the
header list flattened by `colspan`, truncated to the number of time-slot
labels. -/

/-- Pair each element of a list with its position, counting from `n`. -/
def idxFrom {α : Type} (n : Nat) : List α → List (Nat × α)
  | [] => []
  | a :: t => (n, a) :: idxFrom (n + 1) t

/-- One copy of each header per column it spans. -/
def flattenHeaders : List DateHeader → List DateHeader
  | [] => []
  | h :: hs => List.replicate h.colspan h ++ flattenHeaders hs

theorem length_idxFrom {α : Type} (n : Nat) (l : List α) :
    (idxFrom n l).length = l.length := by
  induction l generalizing n with
  | nil => rfl
  | cons a t ih => simp [idxFrom, ih]

theorem idxFrom_append {α : Type} (n : Nat) (a b : List α) :
    idxFrom n (a ++ b) = idxFrom n a ++ idxFrom (n + a.length) b := by
  induction a generalizing n with
  | nil => simp [idxFrom]
  | cons x t ih =>
    simp only [List.cons_append, idxFrom, List.length_cons, List.append_eq]
    rw [ih (n + 1)]
    have e : n + 1 + t.length = n + (t.length + 1) := by omega
    rw [e]

theorem idxFrom_replicate {α : Type} (n m : Nat) (a : α) :
    idxFrom n (List.replicate m a) = (List.range' n m).map (fun i => (i, a)) := by
  induction m generalizing n with
  | zero => rfl
  | succ m ih => simp [List.replicate_succ, idxFrom, List.range'_succ, ih]

theorem idxFrom_drop {α : Type} (n m : Nat) (l : List α) :
    (idxFrom n l).drop m = idxFrom (n + m) (l.drop m) := by
  induction l generalizing n m with
  | nil => simp [idxFrom]
  | cons a t ih =>
    cases m with
    | zero => simp [idxFrom]
    | succ m =>
      simp only [idxFrom, List.drop_succ_cons, ih]
      congr 1
      try omega

theorem idxFrom_take {α : Type} (n m : Nat) (l : List α) :
    (idxFrom n l).take m = idxFrom n (l.take m) := by
  induction l generalizing n m with
  | nil => simp [idxFrom]
  | cons a t ih =>
    cases m with
    | zero => rfl
    | succ m => simp [idxFrom, ih]

theorem map_fst_idxFrom {α : Type} (n : Nat) (l : List α) :
    (idxFrom n l).map Prod.fst = List.range' n l.length := by
  induction l generalizing n with
  | nil => rfl
  | cons a t ih => simp [idxFrom, List.range'_succ, ih]

theorem length_flattenHeaders (hs : List DateHeader) :
    (flattenHeaders hs).length = totalColspan hs := by
  induction hs with
  | nil => rfl
  | cons h t ih => simp [flattenHeaders, totalColspan, ih]

theorem totalColspan_cons (h : DateHeader) (t : List DateHeader) :
    totalColspan (h :: t) = h.colspan + totalColspan t := by
  simp [totalColspan]

/-- Closed form of the inner colspan loop. -/
theorem emitHeader_eq (rows : WeatherRows) (times : List String) (h : DateHeader) :
    ∀ (k idx : Nat), idx ≤ times.length →
      emitHeader rows times h k idx =
        ((List.range' idx (min k (times.length - idx))).map (mkRecord rows times h),
          min (idx + k) times.length) := by
  intro k
  induction k with
  | zero =>
    intro idx hidx
    have h1 : min 0 (times.length - idx) = 0 := by omega
    have h2 : min (idx + 0) times.length = idx := by omega
    simp [emitHeader, h1, h2]
    omega
  | succ k ih =>
    intro idx hidx
    by_cases hlt : idx < times.length
    · have h1 : min (k + 1) (times.length - idx) = min k (times.length - (idx + 1)) + 1 := by
        omega
      rw [emitHeader, if_pos hlt, ih (idx + 1) (by omega), h1, List.range'_succ]
      have h2 : min (idx + 1 + k) times.length = min (idx + (k + 1)) times.length := by omega
      simp [h2]
    · have hidxN : idx = times.length := by omega
      rw [emitHeader, if_neg hlt, ih idx hidx]
      have h1 : min k (times.length - idx) = 0 := by omega
      have h2 : min (k + 1) (times.length - idx) = 0 := by omega
      have h3 : min (idx + k) times.length = min (idx + (k + 1)) times.length := by omega
      simp [h1, h2, h3]

/-- Closed form of the whole span-expansion loop: an indexed map over the
flattened headers, truncated to the available time labels. -/
theorem extractLoop_eq (rows : WeatherRows) (times : List String) :
    ∀ (hs : List DateHeader) (idx : Nat), idx ≤ times.length →
      extractLoop rows times hs idx =
        (idxFrom idx ((flattenHeaders hs).take (times.length - idx))).map
          (fun p => mkRecord rows times p.2 p.1) := by
  intro hs
  induction hs with
  | nil => intro idx hidx; simp [extractLoop, flattenHeaders, idxFrom]
  | cons h t ih =>
    intro idx hidx
    rw [extractLoop, emitHeader_eq rows times h h.colspan idx hidx]
    simp only
    rw [ih (min (idx + h.colspan) times.length) (by omega)]
    rw [flattenHeaders, List.take_append_eq_append_take, List.take_replicate,
      List.length_replicate]
    rw [idxFrom_append, List.length_replicate, idxFrom_replicate, List.map_append,
      List.map_map]
    have e1 : min (times.length - idx) h.colspan = min h.colspan (times.length - idx) := by
      omega
    have e2 : idx + min h.colspan (times.length - idx) = min (idx + h.colspan) times.length := by
      omega
    have e3 : times.length - idx - h.colspan =
        times.length - min (idx + h.colspan) times.length := by omega
    rw [e1, e2, e3]
    rfl

/-! ### Field-level characterisation of one emitted record -/

/-- The cell an attribute row contributes at column `idx`, if any. -/
def rowCell (row : Option (List WeatherCell)) (idx : Nat) : Option WeatherCell :=
  match row with
  | none => none
  | some cells => cells[idx]?

def updWeatherIcon (c : Option WeatherCell) (old : Option String) : Option String :=
  match c with
  | some c => match c.img with | some i => some i.alt | none => old
  | none => old

def updWeatherIconSrc (c : Option WeatherCell) (old : Option String) : Option String :=
  match c with
  | some c => match c.img with | some i => some i.src | none => old
  | none => old

def updPhrase (c : Option WeatherCell) (old : Option String) : Option String :=
  match c with
  | some c => match c.phrase with | some t => some t | none => old
  | none => old

def updWindSpeed (c : Option WeatherCell) (old : Option String) : Option String :=
  match c with
  | some c => match c.windIcon with | some w => some w.dataSpeed | none => old
  | none => old

def updWindDir (c : Option WeatherCell) (old : Option String) : Option String :=
  match c with
  | some c =>
    match c.windIcon with
    | some w => match w.tooltipText with | some t => some t | none => old
    | none => old
  | none => old

def updWindDisp (c : Option WeatherCell) (old : Option String) : Option String :=
  match c with
  | some c =>
    match c.windIcon with
    | some w => match w.valText with | some t => some t | none => old
    | none => old
  | none => old

def updSnow (c : Option WeatherCell) (old : Option String) : Option String :=
  match c with
  | some c => match c.snowDiv with | some d => some (resolveAmount d) | none => old
  | none => old

def updRain (c : Option WeatherCell) (old : Option String) : Option String :=
  match c with
  | some c => match c.rainDiv with | some d => some (resolveAmount d) | none => old
  | none => old

def updTemp (c : Option WeatherCell) (old : Option String) : Option String :=
  match c with
  | some c => some (resolveTemp c)
  | none => old

def updHumidity (c : Option WeatherCell) (old : Option String) : Option String :=
  match c with
  | some c => match c.anySpan with | some t => some t | none => old
  | none => old

def updFreezing (c : Option WeatherCell) (old : Option String) : Option String :=
  match c with
  | some c =>
    match c.levelDiv with
    | some d => some (if d.dataValue ≠ "" then d.dataValue else d.text)
    | none => old
  | none => old

theorem applyRow_weather (row : Option (List WeatherCell)) (idx : Nat) (pd : PeriodData) :
    applyRow applyWeatherCell row idx pd =
      { pd with
        weather_icon := updWeatherIcon (rowCell row idx) pd.weather_icon,
        weather_icon_src := updWeatherIconSrc (rowCell row idx) pd.weather_icon_src } := by
  unfold applyRow rowCell updWeatherIcon updWeatherIconSrc applyWeatherCell
  cases row with
  | none => rfl
  | some cells =>
    simp only [List.get?_eq_getElem?]
    cases cells[idx]? with
    | none => rfl
    | some c =>
      obtain ⟨img, ph, wi, sd, rd, dv, tx, sp, lv⟩ := c
      cases img <;> rfl

theorem applyRow_phrases (row : Option (List WeatherCell)) (idx : Nat) (pd : PeriodData) :
    applyRow applyPhrasesCell row idx pd =
      { pd with weather_phrase := updPhrase (rowCell row idx) pd.weather_phrase } := by
  unfold applyRow rowCell updPhrase applyPhrasesCell
  cases row with
  | none => rfl
  | some cells =>
    simp only [List.get?_eq_getElem?]
    cases cells[idx]? with
    | none => rfl
    | some c =>
      obtain ⟨img, ph, wi, sd, rd, dv, tx, sp, lv⟩ := c
      cases ph <;> rfl

theorem applyRow_wind (row : Option (List WeatherCell)) (idx : Nat) (pd : PeriodData) :
    applyRow applyWindCell row idx pd =
      { pd with
        wind_speed := updWindSpeed (rowCell row idx) pd.wind_speed,
        wind_direction := updWindDir (rowCell row idx) pd.wind_direction,
        wind_speed_display := updWindDisp (rowCell row idx) pd.wind_speed_display } := by
  unfold applyRow rowCell updWindSpeed updWindDir updWindDisp applyWindCell
  cases row with
  | none => rfl
  | some cells =>
    simp only [List.get?_eq_getElem?]
    cases cells[idx]? with
    | none => rfl
    | some c =>
      obtain ⟨img, ph, wi, sd, rd, dv, tx, sp, lv⟩ := c
      cases wi with
      | none => rfl
      | some w =>
        obtain ⟨ds, tt, vt⟩ := w
        cases tt <;> cases vt <;> rfl

theorem applyRow_snow (row : Option (List WeatherCell)) (idx : Nat) (pd : PeriodData) :
    applyRow applySnowCell row idx pd =
      { pd with snow_amount := updSnow (rowCell row idx) pd.snow_amount } := by
  unfold applyRow rowCell updSnow applySnowCell resolveAmount
  cases row with
  | none => rfl
  | some cells =>
    simp only [List.get?_eq_getElem?]
    cases cells[idx]? with
    | none => rfl
    | some c =>
      obtain ⟨img, ph, wi, sd, rd, dv, tx, sp, lv⟩ := c
      cases sd with
      | none => rfl
      | some d =>
        obtain ⟨adv, ast, atx⟩ := d
        cases ast <;> by_cases hv : adv ≠ "" <;> simp [hv]

theorem applyRow_rain (row : Option (List WeatherCell)) (idx : Nat) (pd : PeriodData) :
    applyRow applyRainCell row idx pd =
      { pd with rain_amount := updRain (rowCell row idx) pd.rain_amount } := by
  unfold applyRow rowCell updRain applyRainCell resolveAmount
  cases row with
  | none => rfl
  | some cells =>
    simp only [List.get?_eq_getElem?]
    cases cells[idx]? with
    | none => rfl
    | some c =>
      obtain ⟨img, ph, wi, sd, rd, dv, tx, sp, lv⟩ := c
      cases rd with
      | none => rfl
      | some d =>
        obtain ⟨adv, ast, atx⟩ := d
        cases ast <;> by_cases hv : adv ≠ "" <;> simp [hv]

theorem applyRow_tempMax (row : Option (List WeatherCell)) (idx : Nat) (pd : PeriodData) :
    applyRow applyTempMaxCell row idx pd =
      { pd with temperature_max := updTemp (rowCell row idx) pd.temperature_max } := by
  unfold applyRow rowCell updTemp applyTempMaxCell resolveTemp
  cases row with
  | none => rfl
  | some cells =>
    simp only [List.get?_eq_getElem?]
    cases cells[idx]? with
    | none => rfl
    | some c =>
      obtain ⟨img, ph, wi, sd, rd, dv, tx, sp, lv⟩ := c
      by_cases hv : dv ≠ "" <;> simp [hv]

theorem applyRow_tempMin (row : Option (List WeatherCell)) (idx : Nat) (pd : PeriodData) :
    applyRow applyTempMinCell row idx pd =
      { pd with temperature_min := updTemp (rowCell row idx) pd.temperature_min } := by
  unfold applyRow rowCell updTemp applyTempMinCell resolveTemp
  cases row with
  | none => rfl
  | some cells =>
    simp only [List.get?_eq_getElem?]
    cases cells[idx]? with
    | none => rfl
    | some c =>
      obtain ⟨img, ph, wi, sd, rd, dv, tx, sp, lv⟩ := c
      by_cases hv : dv ≠ "" <;> simp [hv]

theorem applyRow_tempChill (row : Option (List WeatherCell)) (idx : Nat) (pd : PeriodData) :
    applyRow applyTempChillCell row idx pd =
      { pd with temperature_chill := updTemp (rowCell row idx) pd.temperature_chill } := by
  unfold applyRow rowCell updTemp applyTempChillCell resolveTemp
  cases row with
  | none => rfl
  | some cells =>
    simp only [List.get?_eq_getElem?]
    cases cells[idx]? with
    | none => rfl
    | some c =>
      obtain ⟨img, ph, wi, sd, rd, dv, tx, sp, lv⟩ := c
      by_cases hv : dv ≠ "" <;> simp [hv]

theorem applyRow_humidity (row : Option (List WeatherCell)) (idx : Nat) (pd : PeriodData) :
    applyRow applyHumidityCell row idx pd =
      { pd with humidity := updHumidity (rowCell row idx) pd.humidity } := by
  unfold applyRow rowCell updHumidity applyHumidityCell
  cases row with
  | none => rfl
  | some cells =>
    simp only [List.get?_eq_getElem?]
    cases cells[idx]? with
    | none => rfl
    | some c =>
      obtain ⟨img, ph, wi, sd, rd, dv, tx, sp, lv⟩ := c
      cases sp <;> rfl

theorem applyRow_freezing (row : Option (List WeatherCell)) (idx : Nat) (pd : PeriodData) :
    applyRow applyFreezingCell row idx pd =
      { pd with freezing_level := updFreezing (rowCell row idx) pd.freezing_level } := by
  unfold applyRow rowCell updFreezing applyFreezingCell
  cases row with
  | none => rfl
  | some cells =>
    simp only [List.get?_eq_getElem?]
    cases cells[idx]? with
    | none => rfl
    | some c =>
      obtain ⟨img, ph, wi, sd, rd, dv, tx, sp, lv⟩ := c
      cases lv <;> rfl

/-- All ten attribute-row applications at once, as a single record update:
each optional field is governed solely by its own row's cell at `idx`. -/
theorem applyRows_eq (rows : WeatherRows) (pd : PeriodData) (idx : Nat) :
    applyRows rows pd idx =
      { pd with
        weather_icon := updWeatherIcon (rowCell rows.weather idx) pd.weather_icon,
        weather_icon_src := updWeatherIconSrc (rowCell rows.weather idx) pd.weather_icon_src,
        weather_phrase := updPhrase (rowCell rows.phrases idx) pd.weather_phrase,
        wind_speed := updWindSpeed (rowCell rows.wind idx) pd.wind_speed,
        wind_direction := updWindDir (rowCell rows.wind idx) pd.wind_direction,
        wind_speed_display := updWindDisp (rowCell rows.wind idx) pd.wind_speed_display,
        snow_amount := updSnow (rowCell rows.snow idx) pd.snow_amount,
        rain_amount := updRain (rowCell rows.rain idx) pd.rain_amount,
        temperature_max := updTemp (rowCell rows.temperatureMax idx) pd.temperature_max,
        temperature_min := updTemp (rowCell rows.temperatureMin idx) pd.temperature_min,
        temperature_chill := updTemp (rowCell rows.temperatureChill idx) pd.temperature_chill,
        humidity := updHumidity (rowCell rows.humidity idx) pd.humidity,
        freezing_level := updFreezing (rowCell rows.freezingLevel idx) pd.freezing_level } := by
  simp only [applyRows, applyRow_weather, applyRow_phrases, applyRow_wind, applyRow_snow,
    applyRow_rain, applyRow_tempMax, applyRow_tempMin, applyRow_tempChill,
    applyRow_humidity, applyRow_freezing]

theorem mkRecord_period_index (rows : WeatherRows) (times : List String)
    (h : DateHeader) (idx : Nat) : (mkRecord rows times h idx).period_index = idx := by
  rw [mkRecord, applyRows_eq]

theorem mkRecord_date (rows : WeatherRows) (times : List String)
    (h : DateHeader) (idx : Nat) : (mkRecord rows times h idx).date = h.date := by
  rw [mkRecord, applyRows_eq]

theorem mkRecord_day_name (rows : WeatherRows) (times : List String)
    (h : DateHeader) (idx : Nat) : (mkRecord rows times h idx).day_name = h.day_name := by
  rw [mkRecord, applyRows_eq]

theorem mkRecord_day_num (rows : WeatherRows) (times : List String)
    (h : DateHeader) (idx : Nat) : (mkRecord rows times h idx).day_num = h.day_num := by
  rw [mkRecord, applyRows_eq]

theorem mkRecord_snow_amount (rows : WeatherRows) (times : List String)
    (h : DateHeader) (idx : Nat) :
    (mkRecord rows times h idx).snow_amount = updSnow (rowCell rows.snow idx) none := by
  rw [mkRecord, applyRows_eq]

theorem mkRecord_rain_amount (rows : WeatherRows) (times : List String)
    (h : DateHeader) (idx : Nat) :
    (mkRecord rows times h idx).rain_amount = updRain (rowCell rows.rain idx) none := by
  rw [mkRecord, applyRows_eq]

theorem mkRecord_temperature_max (rows : WeatherRows) (times : List String)
    (h : DateHeader) (idx : Nat) :
    (mkRecord rows times h idx).temperature_max =
      updTemp (rowCell rows.temperatureMax idx) none := by
  rw [mkRecord, applyRows_eq]

theorem mkRecord_temperature_min (rows : WeatherRows) (times : List String)
    (h : DateHeader) (idx : Nat) :
    (mkRecord rows times h idx).temperature_min =
      updTemp (rowCell rows.temperatureMin idx) none := by
  rw [mkRecord, applyRows_eq]

theorem mkRecord_temperature_chill (rows : WeatherRows) (times : List String)
    (h : DateHeader) (idx : Nat) :
    (mkRecord rows times h idx).temperature_chill =
      updTemp (rowCell rows.temperatureChill idx) none := by
  rw [mkRecord, applyRows_eq]

theorem mkRecord_weather_phrase (rows : WeatherRows) (times : List String)
    (h : DateHeader) (idx : Nat) :
    (mkRecord rows times h idx).weather_phrase =
      updPhrase (rowCell rows.phrases idx) none := by
  rw [mkRecord, applyRows_eq]

theorem mkRecord_humidity (rows : WeatherRows) (times : List String)
    (h : DateHeader) (idx : Nat) :
    (mkRecord rows times h idx).humidity = updHumidity (rowCell rows.humidity idx) none := by
  rw [mkRecord, applyRows_eq]

/-- Characterisation of `extract_dynamic_forecast_data` as an indexed map over the flattened,
truncated header sequence. -/
theorem extract_eq (soup : Option ForecastTable) :
    extract_dynamic_forecast_data soup =
      (idxFrom 0 ((flattenHeaders (soupDateHeaders soup)).take
          (soupTimeHeaders soup).length)).map
        (fun p => mkRecord (soupRows soup) (soupTimeHeaders soup) p.2 p.1) := by
  cases soup with
  | none => rfl
  | some t =>
    show extractLoop t.rows (parseTimeHeaders (t.timeRow.getD [])) _ 0 = _
    rw [extractLoop_eq _ _ _ 0 (Nat.zero_le _)]
    rfl

theorem idxFrom_getElem? {α : Type} (n : Nat) (l : List α) (i : Nat) :
    (idxFrom n l)[i]? = l[i]?.map (fun a => (n + i, a)) := by
  induction l generalizing n i with
  | nil => simp [idxFrom]
  | cons a t ih =>
    cases i with
    | zero => simp [idxFrom]
    | succ i =>
      simp only [idxFrom, List.getElem?_cons_succ, ih]
      have e : n + 1 + i = n + (i + 1) := by omega
      rw [e]

/-- The number of emitted records: the total colspan, truncated to the
number of parsed time labels. -/
theorem extract_length (soup : Option ForecastTable) :
    (extract_dynamic_forecast_data soup).length =
      min (totalColspan (soupDateHeaders soup)) (soupTimeHeaders soup).length := by
  rw [extract_eq, List.length_map, length_idxFrom, List.length_take,
    length_flattenHeaders]
  omega

/-- The emitted `period_index` values are `0, 1, ..., count - 1`. -/
theorem extract_map_period_index (soup : Option ForecastTable) :
    (extract_dynamic_forecast_data soup).map (·.period_index) =
      List.range (extract_dynamic_forecast_data soup).length := by
  rw [extract_length, extract_eq, List.map_map]
  have h1 : ((fun r : PeriodData => r.period_index) ∘
      fun p : Nat × DateHeader =>
        mkRecord (soupRows soup) (soupTimeHeaders soup) p.2 p.1) = Prod.fst := by
    funext p
    exact mkRecord_period_index _ _ _ _
  rw [h1, map_fst_idxFrom, List.range_eq_range', List.length_take,
    length_flattenHeaders]
  congr 1
  omega

/-! ## Claim C1 -/

/-- A forecast table with no parsable date headers but two time labels:
the extractor emits nothing. -/
def tableC1 : Option ForecastTable :=
  some { dateRow := some [],
         timeRow := some [{ spanEn := some "AM", anySpan := none, text := "AM" },
                          { spanEn := some "PM", anySpan := none, text := "PM" }],
         rows := WeatherRows.empty }

/-- C1 (counterexample): on a parsed forecast table with two parsed
time-slot labels but no date headers, the extractor emits zero records, so
the emitted count does not equal the number of parsed time-slot labels. -/
theorem C1_counterexample :
    (soupTimeHeaders tableC1).length = 2 ∧
    (extract_dynamic_forecast_data tableC1).length = 0 ∧
    (extract_dynamic_forecast_data tableC1).length ≠ (soupTimeHeaders tableC1).length := by
  decide

/-- C1 (amended): for every parsed forecast table, the number of emitted
Forecast Period Records equals the minimum of the total colspan of the
parsed date headers and the number of parsed time-slot labels (so emission
stops once the running counter would exceed the number of labels), and the
emitted `period_index` values are exactly `0..count-1`, consecutive, with
no gaps or repeats. -/
theorem C1_count_and_indices (soup : Option ForecastTable) :
    (extract_dynamic_forecast_data soup).length =
      min (totalColspan (soupDateHeaders soup)) (soupTimeHeaders soup).length ∧
    (extract_dynamic_forecast_data soup).map (·.period_index) =
      List.range (extract_dynamic_forecast_data soup).length :=
  ⟨extract_length soup, extract_map_period_index soup⟩

/-! ## Claim C2 -/

/-- Sum of the colspans of the date headers before position `j`. -/
def colspanBefore (soup : Option ForecastTable) (j : Nat) : Nat :=
  totalColspan ((soupDateHeaders soup).take j)

/-- Number of records the header at position `j` actually yields: its
colspan, truncated by the remaining time labels. -/
def blockLen (soup : Option ForecastTable) (j : Nat) (h : DateHeader) : Nat :=
  min h.colspan ((soupTimeHeaders soup).length - colspanBefore soup j)

/-- The consecutive slice of the output belonging to the header at
position `j`. -/
def headerBlock (soup : Option ForecastTable) (j : Nat) (h : DateHeader) :
    List PeriodData :=
  ((extract_dynamic_forecast_data soup).drop (colspanBefore soup j)).take
    (blockLen soup j h)

theorem flattenHeaders_decomp :
    ∀ (hs : List DateHeader) (j : Nat) (h : DateHeader), hs[j]? = some h →
      (flattenHeaders hs).drop (totalColspan (hs.take j)) =
        List.replicate h.colspan h ++ flattenHeaders (hs.drop (j + 1)) := by
  intro hs
  induction hs with
  | nil => intro j h hj; simp at hj
  | cons a t ih =>
    intro j h hj
    cases j with
    | zero =>
      simp only [List.getElem?_cons_zero, Option.some.injEq] at hj
      subst hj
      simp [flattenHeaders, totalColspan]
    | succ j =>
      simp only [List.getElem?_cons_succ] at hj
      rw [List.take_succ_cons, totalColspan_cons, flattenHeaders]
      have e : a.colspan + totalColspan (t.take j) =
          (List.replicate a.colspan a).length + totalColspan (t.take j) := by
        simp
      rw [e, List.drop_append]
      simpa using ih j h hj

/-- The block for the header at position `j` is exactly the records
`mkRecord` produces at the `blockLen` consecutive indices starting at
`colspanBefore`. -/
theorem headerBlock_eq (soup : Option ForecastTable) (j : Nat) (h : DateHeader)
    (hj : (soupDateHeaders soup)[j]? = some h) :
    headerBlock soup j h =
      (List.range' (colspanBefore soup j) (blockLen soup j h)).map
        (mkRecord (soupRows soup) (soupTimeHeaders soup) h) := by
  unfold headerBlock blockLen colspanBefore
  rw [extract_eq, ← List.map_drop, ← List.map_take, idxFrom_drop,
    idxFrom_take, List.drop_take, Nat.zero_add]
  rw [flattenHeaders_decomp _ j h hj]
  set S := totalColspan ((soupDateHeaders soup).take j) with hS
  set N := (soupTimeHeaders soup).length with hN
  rw [List.take_take]
  have e1 : min (min h.colspan (N - S)) (N - S) = min h.colspan (N - S) := by omega
  rw [e1, List.take_append_eq_append_take, List.take_replicate, List.length_replicate]
  have e2 : min (min h.colspan (N - S)) h.colspan = min h.colspan (N - S) := by omega
  have e3 : min h.colspan (N - S) - h.colspan = 0 := by omega
  rw [e2, e3, List.take_zero, List.append_nil, idxFrom_replicate, List.map_map]
  rfl

/-- A one-header / one-time-label table: the header declares `colspan = 2`
but only one record is emitted. -/
def tableC2cx : Option ForecastTable :=
  some { dateRow := some [{ dataDate := "2025-11-10", dayName := some "Mon",
                            dayNum := some "10", colspan := 2 }],
         timeRow := some [{ spanEn := some "AM", anySpan := none, text := "AM" }],
         rows := WeatherRows.empty }

/-- C2 (counterexample): a date header parsed with `colspan = 2` for which
only one record (not two) carries its `date`/`day_name`/`day_num` values,
because only one time-slot label was parsed. -/
theorem C2_counterexample :
    soupDateHeaders tableC2cx =
      [{ date := "2025-11-10", day_name := "Mon", day_num := "10", colspan := 2 }] ∧
    ((extract_dynamic_forecast_data tableC2cx).filter
        (fun r => r.date == "2025-11-10" && r.day_name == "Mon" && r.day_num == "10")).length
      = 1 := by
  decide

/-- C2 (amended): for the date header at position `j` (with colspan `k`),
the extractor emits exactly `min k (N - S)` consecutive records carrying
that header's `date`/`day_name`/`day_num` (where `N` is the number of
parsed time-slot labels and `S` the total colspan of the preceding
headers); this is exactly `k` whenever `S + k ≤ N`.  The block occupies
the consecutive output positions `S, S+1, ..., S + min k (N - S) - 1`. -/
theorem C2_colspan_block (soup : Option ForecastTable) (j : Nat) (h : DateHeader)
    (hj : (soupDateHeaders soup)[j]? = some h) :
    (headerBlock soup j h).map (·.period_index) =
      List.range' (colspanBefore soup j) (blockLen soup j h) ∧
    ∀ r ∈ headerBlock soup j h,
      r.date = h.date ∧ r.day_name = h.day_name ∧ r.day_num = h.day_num := by
  rw [headerBlock_eq soup j h hj]
  constructor
  · rw [List.map_map]
    have h1 : ((fun r : PeriodData => r.period_index) ∘
        mkRecord (soupRows soup) (soupTimeHeaders soup) h) = id := by
      funext i
      exact mkRecord_period_index _ _ _ _
    rw [h1, List.map_id]
  · intro r hr
    obtain ⟨i, _, hi⟩ := List.mem_map.mp hr
    subst hi
    exact ⟨mkRecord_date _ _ _ _, mkRecord_day_name _ _ _ _, mkRecord_day_num _ _ _ _⟩

/-- A one-header / two-label table exercising the amended C2. -/
def tableC2w : Option ForecastTable :=
  some { dateRow := some [{ dataDate := "2025-11-10", dayName := some "Mon",
                            dayNum := some "10", colspan := 2 }],
         timeRow := some [{ spanEn := some "AM", anySpan := none, text := "AM" },
                          { spanEn := some "PM", anySpan := none, text := "PM" }],
         rows := WeatherRows.empty }

/-- The header used by the C2 witness. -/
def hdrC2 : DateHeader :=
  { date := "2025-11-10", day_name := "Mon", day_num := "10", colspan := 2 }

/-- Witness for C2 (amended), at a concrete table whose single header has
colspan 2 and which has two time labels. -/
theorem C2_witness :
    (soupDateHeaders tableC2w)[0]? = some hdrC2 ∧
    (headerBlock tableC2w 0 hdrC2).map (·.period_index) =
      List.range' (colspanBefore tableC2w 0) (blockLen tableC2w 0 hdrC2) :=
  ⟨by decide, (C2_colspan_block tableC2w 0 hdrC2 (by decide)).1⟩

/-! ## Claims C3 and C10 -/

theorem rowCell_eq (cells : List WeatherCell) (idx : Nat) :
    rowCell (some cells) idx = cells[idx]? := rfl

/-- Every emitted record is `mkRecord` at its own `period_index` for some
header. -/
theorem extract_mem_mkRecord (soup : Option ForecastTable) (r : PeriodData)
    (hr : r ∈ extract_dynamic_forecast_data soup) :
    ∃ h : DateHeader,
      r = mkRecord (soupRows soup) (soupTimeHeaders soup) h r.period_index := by
  rw [extract_eq] at hr
  obtain ⟨p, _, hp⟩ := List.mem_map.mp hr
  refine ⟨p.2, ?_⟩
  rw [← hp, mkRecord_period_index]

/-- One key of the serialized record, present only when the dict holds the
key. -/
def optField (k : String) (v : Option String) : List (String × String) :=
  match v with
  | some s => [(k, s)]
  | none => []

/-- The key/value content of one record as it is serialized by the
record-oriented export of `tidy_and_export` (`DataFrame.to_json` /
`to_csv` write each string field of the period dict verbatim), keys in the
dict's insertion order. -/
def exportedFields (r : PeriodData) : List (String × String) :=
  [("date", r.date), ("day_name", r.day_name), ("day_num", r.day_num),
   ("time_period", r.time_period), ("period_index", toString r.period_index)] ++
  optField "weather_icon" r.weather_icon ++
  optField "weather_icon_src" r.weather_icon_src ++
  optField "weather_phrase" r.weather_phrase ++
  optField "wind_speed" r.wind_speed ++
  optField "wind_direction" r.wind_direction ++
  optField "wind_speed_display" r.wind_speed_display ++
  optField "snow_amount" r.snow_amount ++
  optField "rain_amount" r.rain_amount ++
  optField "temperature_max" r.temperature_max ++
  optField "temperature_min" r.temperature_min ++
  optField "temperature_chill" r.temperature_chill ++
  optField "humidity" r.humidity ++
  optField "freezing_level" r.freezing_level

theorem exportedFields_snow (r : PeriodData) (v : String)
    (hv : r.snow_amount = some v) : ("snow_amount", v) ∈ exportedFields r := by
  unfold exportedFields optField
  rw [hv]
  simp

theorem exportedFields_rain (r : PeriodData) (v : String)
    (hv : r.rain_amount = some v) : ("rain_amount", v) ∈ exportedFields r := by
  unfold exportedFields optField
  rw [hv]
  simp

/-- C3: for every emitted record, if the snow (resp. rain) row exists and
its cell at the record's column has an amount div whose resolved value is
the sentinel `—`, then the record's `snow_amount` (resp. `rain_amount`) is
the literal string `—` — not `"0"`, not `""`, not omitted — and the pair
is present, with the sentinel unchanged, in the exported field set. -/
theorem C3_sentinel_roundtrip (soup : Option ForecastTable) (r : PeriodData)
    (hr : r ∈ extract_dynamic_forecast_data soup) :
    (∀ (cells : List WeatherCell) (cell : WeatherCell) (d : AmountDiv),
      (soupRows soup).snow = some cells →
      cells[r.period_index]? = some cell →
      cell.snowDiv = some d →
      resolveAmount d = "—" →
      r.snow_amount = some "—" ∧ ("snow_amount", "—") ∈ exportedFields r) ∧
    (∀ (cells : List WeatherCell) (cell : WeatherCell) (d : AmountDiv),
      (soupRows soup).rain = some cells →
      cells[r.period_index]? = some cell →
      cell.rainDiv = some d →
      resolveAmount d = "—" →
      r.rain_amount = some "—" ∧ ("rain_amount", "—") ∈ exportedFields r) := by
  obtain ⟨hh, he⟩ := extract_mem_mkRecord soup r hr
  constructor
  · intro cells cell d hrow hcell hdiv hval
    have hs : r.snow_amount = some "—" := by
      rw [he, mkRecord_snow_amount, hrow, rowCell_eq, hcell]
      simp [updSnow, hdiv, hval]
    exact ⟨hs, exportedFields_snow r "—" hs⟩
  · intro cells cell d hrow hcell hdiv hval
    have hs : r.rain_amount = some "—" := by
      rw [he, mkRecord_rain_amount, hrow, rowCell_eq, hcell]
      simp [updRain, hdiv, hval]
    exact ⟨hs, exportedFields_rain r "—" hs⟩

/-- The sentinel-valued amount div used by the C3 witness. -/
def amtDashC3 : AmountDiv := { dataValue := "", spanText := none, text := "—" }

/-- Snow cell of the C3 witness table. -/
def snowCellC3 : WeatherCell := { WeatherCell.empty with snowDiv := some amtDashC3 }

/-- Rain cell of the C3 witness table. -/
def rainCellC3 : WeatherCell := { WeatherCell.empty with rainDiv := some amtDashC3 }

/-- C3 witness table: one day, one time slot, snow and rain cells whose
value is the sentinel. -/
def tableC3 : Option ForecastTable :=
  some { dateRow := some [{ dataDate := "2025-11-10", dayName := some "Mon",
                            dayNum := some "10", colspan := 1 }],
         timeRow := some [{ spanEn := some "AM", anySpan := none, text := "AM" }],
         rows := { WeatherRows.empty with
                   snow := some [snowCellC3],
                   rain := some [rainCellC3] } }

/-- The single record the C3 witness table produces. -/
def recC3 : PeriodData :=
  { date := "2025-11-10", day_name := "Mon", day_num := "10",
    time_period := "AM", period_index := 0,
    snow_amount := some "—", rain_amount := some "—" }

/-- Witness for C3 at a concrete table whose snow and rain cells hold the
sentinel. -/
theorem C3_witness : recC3.snow_amount = some "—" ∧ recC3.rain_amount = some "—" := by
  have t := C3_sentinel_roundtrip tableC3 recC3 (by decide)
  exact ⟨(t.1 [snowCellC3] snowCellC3 amtDashC3 (by decide) (by decide) (by decide)
            (by decide)).1,
         (t.2 [rainCellC3] rainCellC3 amtDashC3 (by decide) (by decide) (by decide)
            (by decide)).1⟩

/-- C10: for every emitted record and each of the three temperature rows,
whenever that row exists and has a cell at the record's column, the record
carries the corresponding field — the cell's `data-value` when non-empty,
otherwise the cell's text (possibly the empty string) — it is never
omitted.  By contrast, the snow / rain / phrase / humidity fields are
omitted (absent from the record) when their nested element is absent. -/
theorem C10_temperature_always_present (soup : Option ForecastTable) (r : PeriodData)
    (hr : r ∈ extract_dynamic_forecast_data soup) :
    (∀ (cells : List WeatherCell) (cell : WeatherCell),
      (soupRows soup).temperatureMax = some cells →
      cells[r.period_index]? = some cell →
      r.temperature_max = some (resolveTemp cell)) ∧
    (∀ (cells : List WeatherCell) (cell : WeatherCell),
      (soupRows soup).temperatureMin = some cells →
      cells[r.period_index]? = some cell →
      r.temperature_min = some (resolveTemp cell)) ∧
    (∀ (cells : List WeatherCell) (cell : WeatherCell),
      (soupRows soup).temperatureChill = some cells →
      cells[r.period_index]? = some cell →
      r.temperature_chill = some (resolveTemp cell)) ∧
    (∀ (cells : List WeatherCell) (cell : WeatherCell),
      (soupRows soup).snow = some cells →
      cells[r.period_index]? = some cell →
      cell.snowDiv = none → r.snow_amount = none) ∧
    (∀ (cells : List WeatherCell) (cell : WeatherCell),
      (soupRows soup).rain = some cells →
      cells[r.period_index]? = some cell →
      cell.rainDiv = none → r.rain_amount = none) ∧
    (∀ (cells : List WeatherCell) (cell : WeatherCell),
      (soupRows soup).phrases = some cells →
      cells[r.period_index]? = some cell →
      cell.phrase = none → r.weather_phrase = none) ∧
    (∀ (cells : List WeatherCell) (cell : WeatherCell),
      (soupRows soup).humidity = some cells →
      cells[r.period_index]? = some cell →
      cell.anySpan = none → r.humidity = none) := by
  obtain ⟨hh, he⟩ := extract_mem_mkRecord soup r hr
  refine ⟨?_, ?_, ?_, ?_, ?_, ?_, ?_⟩
  · intro cells cell hrow hcell
    rw [he, mkRecord_temperature_max, hrow, rowCell_eq, hcell]
    rfl
  · intro cells cell hrow hcell
    rw [he, mkRecord_temperature_min, hrow, rowCell_eq, hcell]
    rfl
  · intro cells cell hrow hcell
    rw [he, mkRecord_temperature_chill, hrow, rowCell_eq, hcell]
    rfl
  · intro cells cell hrow hcell hdiv
    rw [he, mkRecord_snow_amount, hrow, rowCell_eq, hcell]
    simp [updSnow, hdiv]
  · intro cells cell hrow hcell hdiv
    rw [he, mkRecord_rain_amount, hrow, rowCell_eq, hcell]
    simp [updRain, hdiv]
  · intro cells cell hrow hcell hdiv
    rw [he, mkRecord_weather_phrase, hrow, rowCell_eq, hcell]
    simp [updPhrase, hdiv]
  · intro cells cell hrow hcell hdiv
    rw [he, mkRecord_humidity, hrow, rowCell_eq, hcell]
    simp [updHumidity, hdiv]

/-- Temperature-max cell of the C10 witness table: non-empty `data-value`
wins. -/
def tMaxCellC10 : WeatherCell := { WeatherCell.empty with dataValue := "-3", text := "x" }

/-- Temperature-min cell of the C10 witness table: empty `data-value`
falls back to the text. -/
def tMinCellC10 : WeatherCell := { WeatherCell.empty with dataValue := "", text := "-7" }

/-- Temperature-chill cell of the C10 witness table: both empty — the
field is still present, as the empty string. -/
def tChillCellC10 : WeatherCell := WeatherCell.empty

/-- C10 witness table: one day, one slot, all three temperature rows
present, plus snow/rain/phrase/humidity rows whose nested elements are
absent. -/
def tableC10 : Option ForecastTable :=
  some { dateRow := some [{ dataDate := "2025-11-11", dayName := some "Tue",
                            dayNum := some "11", colspan := 1 }],
         timeRow := some [{ spanEn := some "PM", anySpan := none, text := "PM" }],
         rows := { WeatherRows.empty with
                   temperatureMax := some [tMaxCellC10],
                   temperatureMin := some [tMinCellC10],
                   temperatureChill := some [tChillCellC10],
                   snow := some [WeatherCell.empty],
                   rain := some [WeatherCell.empty],
                   phrases := some [WeatherCell.empty],
                   humidity := some [WeatherCell.empty] } }

/-- The single record the C10 witness table produces. -/
def recC10 : PeriodData :=
  { date := "2025-11-11", day_name := "Tue", day_num := "11",
    time_period := "PM", period_index := 0,
    temperature_max := some "-3", temperature_min := some "-7",
    temperature_chill := some "" }

/-- Witness for C10 at a concrete table: all three temperature fields are
present (even the all-empty chill cell yields `some ""`), while the
snow/rain/phrase/humidity fields are omitted. -/
theorem C10_witness :
    recC10.temperature_max = some "-3" ∧ recC10.temperature_min = some "-7" ∧
    recC10.temperature_chill = some "" ∧ recC10.snow_amount = none ∧
    recC10.rain_amount = none := by
  have t := C10_temperature_always_present tableC10 recC10 (by decide)
  refine ⟨?_, ?_, ?_, ?_, ?_⟩
  · exact t.1 [tMaxCellC10] tMaxCellC10 (by decide) (by decide)
  · exact t.2.1 [tMinCellC10] tMinCellC10 (by decide) (by decide)
  · exact t.2.2.1 [tChillCellC10] tChillCellC10 (by decide) (by decide)
  · exact t.2.2.2.1 [WeatherCell.empty] WeatherCell.empty (by decide) (by decide) (by decide)
  · exact t.2.2.2.2.1 [WeatherCell.empty] WeatherCell.empty (by decide) (by decide) (by decide)

/-! ## String containment (Python's `in` operator on `str`) -/

/-- Test `hasPrefixB n h`: the char list `n` is an initial segment of `h`. -/
def hasPrefixB : List Char → List Char → Bool
  | [], _ => true
  | _ :: _, [] => false
  | a :: as, b :: bs => a == b && hasPrefixB as bs

/-- Test `hasSubB n h`: the char list `n` occurs contiguously in `h`. -/
def hasSubB (needle : List Char) : List Char → Bool
  | [] => hasPrefixB needle []
  | c :: t => hasPrefixB needle (c :: t) || hasSubB needle t

/-- Python's `needle in hay` on strings. -/
def strContainsB (hay needle : String) : Bool :=
  hasSubB needle.toList hay.toList

/-- Python `str.lower()`, character-wise (the strings involved — URLs and
column labels — are ASCII). -/
def strToLower (s : String) : String :=
  String.mk (s.data.map Char.toLower)

theorem hasPrefixB_iff (n : List Char) :
    ∀ h : List Char, hasPrefixB n h = true ↔ ∃ t, h = n ++ t := by
  induction n with
  | nil =>
    intro h
    simp [hasPrefixB]
  | cons a as ih =>
    intro h
    cases h with
    | nil =>
      simp [hasPrefixB]
    | cons b bs =>
      simp only [hasPrefixB, Bool.and_eq_true, beq_iff_eq, ih bs, List.cons_append,
        List.cons.injEq]
      constructor
      · rintro ⟨hab, t, ht⟩
        exact ⟨t, hab.symm, ht⟩
      · rintro ⟨t, hab, ht⟩
        exact ⟨hab.symm, t, ht⟩

theorem hasSubB_iff (n : List Char) :
    ∀ h : List Char, hasSubB n h = true ↔ ∃ p t, h = p ++ n ++ t := by
  intro h
  induction h with
  | nil =>
    simp only [hasSubB, hasPrefixB_iff n]
    constructor
    · rintro ⟨t, ht⟩
      exact ⟨[], t, by simpa using ht⟩
    · rintro ⟨p, t, ht⟩
      have hp : p = [] ∧ n ++ t = [] := by
        constructor
        · cases p with
          | nil => rfl
          | cons x xs => simp at ht
        · cases p with
          | nil => simpa using ht.symm
          | cons x xs => simp at ht
      exact ⟨t, by rw [← hp.2]⟩
  | cons c t iht =>
    simp only [hasSubB, Bool.or_eq_true, hasPrefixB_iff n, iht]
    constructor
    · rintro (⟨t0, ht0⟩ | ⟨p, t0, ht0⟩)
      · exact ⟨[], t0, by simpa using ht0⟩
      · exact ⟨c :: p, t0, by simp [ht0]⟩
    · rintro ⟨p, t0, ht0⟩
      cases p with
      | nil =>
        exact Or.inl ⟨t0, by simpa using ht0⟩
      | cons x xs =>
        simp only [List.cons_append, List.cons.injEq] at ht0
        exact Or.inr ⟨xs, t0, ht0.2⟩

/-- If a string contains `pre ++ mid ++ suf`, it contains `mid`. -/
theorem strContainsB_of_split (hay pre mid suf : String)
    (h : strContainsB hay (pre ++ mid ++ suf) = true) :
    strContainsB hay mid = true := by
  unfold strContainsB at h ⊢
  rw [hasSubB_iff] at h ⊢
  obtain ⟨p, t, ht⟩ := h
  refine ⟨p ++ pre.toList, suf.toList ++ t, ?_⟩
  rw [ht]
  have e : (pre ++ mid ++ suf).toList = pre.toList ++ mid.toList ++ suf.toList := by
    simp [String.toList, String.data_append]
  rw [e]
  simp

/-! ## Content validity checks of `scrape_elevation` -/

/-- Check `has_forecast_table = "forecast-table" in html`. -/
def has_forecast_table (html : String) : Bool :=
  strContainsB html "forecast-table"

/-- Check `has_forecast_days = '<div class="forecast-table-days"' in html`. -/
def has_forecast_days (html : String) : Bool :=
  strContainsB html "<div class=\"forecast-table-days\""

/-- Check `page_size_ok = len(html) > 150000`. -/
def page_size_ok (html : String) : Bool :=
  decide (html.length > 150000)

/-- The initial validity check: the branch to the reload path is taken iff
`not (has_forecast_table or has_forecast_days) or not page_size_ok`; this
is the complementary "content usable" predicate. -/
def contentValid (html : String) : Bool :=
  (has_forecast_table html || has_forecast_days html) && page_size_ok html

/-- The post-reload recheck: `"forecast-table" in html and len(html) >
150000`. -/
def recheckValid (html : String) : Bool :=
  strContainsB html "forecast-table" && decide (html.length > 150000)

/-! ## Claim C9 -/

/-- The forecast-days marker contains `forecast-table`, so a page with the
marker also passes the plain `forecast-table` test. -/
theorem has_forecast_days_imp_table (html : String) :
    has_forecast_days html = true → has_forecast_table html = true := by
  intro hd
  have e : ("<div class=\"" ++ "forecast-table" ++ "-days\"" : String) =
      "<div class=\"forecast-table-days\"" := by rfl
  have h : strContainsB html ("<div class=\"" ++ "forecast-table" ++ "-days\"") = true := by
    rw [e]
    exact hd
  exact strContainsB_of_split html "<div class=\"" "forecast-table" "-days\"" h

/-- C9: the initial content-validity check and the post-reload recheck are
the same predicate on the markup — both accept a page iff its HTML
contains `forecast-table` and its length exceeds 150000 characters —
because the forecast-days marker string contains the substring
`forecast-table`. -/
theorem C9_checks_equivalent (html : String) :
    contentValid html = (strContainsB html "forecast-table" &&
      decide (html.length > 150000)) ∧
    recheckValid html = (strContainsB html "forecast-table" &&
      decide (html.length > 150000)) ∧
    contentValid html = recheckValid html := by
  have h1 : contentValid html = (strContainsB html "forecast-table" &&
      decide (html.length > 150000)) := by
    show ((has_forecast_table html || has_forecast_days html) && page_size_ok html) = _
    cases hft : has_forecast_table html with
    | true =>
      have : strContainsB html "forecast-table" = true := hft
      rw [this]
      simp [page_size_ok]
    | false =>
      cases hfd : has_forecast_days html with
      | false =>
        have : strContainsB html "forecast-table" = false := hft
        rw [this]
        simp [hft, hfd]
      | true =>
        have := has_forecast_days_imp_table html hfd
        rw [hft] at this
        exact Bool.noConfusion this
  exact ⟨h1, rfl, by rw [h1]; rfl⟩

/-! ## `scrape_elevation` (navigation, validity, single reload) -/

/-- A pandas DataFrame produced by `extract_tables`, modelled by its
column labels (the only part the downstream export logic inspects).  The
`pd.read_html` parsing inside `extract_tables` is external-library
behaviour; the tables extracted from a given page are an oracle input of
the environment. -/
structure DataFrame where
  cols : List String
deriving Repr, DecidableEq

/-- Environment of `extract_hourly_forecast_data`: presence of the
`button[data-table-expand-all]` control, whether clicking / re-reading the
page raises, and the parsed forecast table of the re-rendered markup. -/
structure HourlyEnv where
  button : Bool
  fails : Bool
  soup : Option ForecastTable
deriving Repr, DecidableEq

/-- Model of `extract_hourly_forecast_data(page)`: empty when the expand button is
absent; empty when any step raises (the `except` branch returns the
initial `hourly_data = []`); otherwise the dynamic extractor on the
re-rendered markup. -/
def extract_hourly_forecast_data (env : HourlyEnv) : List PeriodData :=
  if !env.button then []
  else if env.fails then []
  else extract_dynamic_forecast_data env.soup

/-- Environment of one `scrape_elevation` call: whether the initial
navigation block raises, the markup obtained from it (with its parsed
forecast table and extracted tables), whether `page.reload()` raises, the
markup after reload, and the hourly-expansion oracle. -/
structure ElevationPage where
  navFails : Bool
  html1 : String
  soup1 : Option ForecastTable
  tables1 : List DataFrame
  reloadFails : Bool
  html2 : String
  soup2 : Option ForecastTable
  tables2 : List DataFrame
  hourly : HourlyEnv
deriving Repr, DecidableEq

/-- The dict `scrape_elevation` returns on success. -/
structure ScrapeResult where
  elevation : String
  url : String
  tables : List DataFrame
  dynamic_forecast : List PeriodData
  hourly_forecast : List PeriodData
  html_length : Nat
deriving Repr, DecidableEq

/-- The extraction + result-building tail of `scrape_elevation`, applied
to whichever markup survived the validity check. -/
def buildScrapeResult (name url html : String) (tables : List DataFrame)
    (soup : Option ForecastTable) (hourly : HourlyEnv) : ScrapeResult :=
  { elevation := name, url := url, tables := tables,
    dynamic_forecast := extract_dynamic_forecast_data soup,
    hourly_forecast := extract_hourly_forecast_data hourly,
    html_length := html.length }

/-- Model of `scrape_elevation(page, name, url)`: returns the result dict or `None`
together with the number of `page.reload()` calls performed.  Navigation
failure returns `None` with no reload; invalid content triggers exactly
one reload-and-recheck; a failed reload or a failed recheck returns
`None`. -/
def scrape_elevation (name url : String) (env : ElevationPage) :
    Option ScrapeResult × Nat :=
  if env.navFails then (none, 0)
  else if contentValid env.html1 = false then
    if env.reloadFails then (none, 1)
    else if recheckValid env.html2 then
      (some (buildScrapeResult name url env.html2 env.tables2 env.soup2 env.hourly), 1)
    else (none, 1)
  else (some (buildScrapeResult name url env.html1 env.tables1 env.soup1 env.hourly), 0)

/-! ## Claim C4 -/

/-- C4: whenever the markup of an elevation page fails the
content-validity check, exactly one reload-and-recheck is performed, and
if the reload raises or the rechecked markup is still invalid, the
elevation is reported failed (`scrape_elevation` returns no data) with no
second retry. -/
theorem C4_single_reload (name url : String) (env : ElevationPage)
    (hnav : env.navFails = false)
    (hbad : contentValid env.html1 = false) :
    (scrape_elevation name url env).2 = 1 ∧
    ((env.reloadFails = true ∨ recheckValid env.html2 = false) →
      (scrape_elevation name url env).1 = none) := by
  cases hrl : env.reloadFails with
  | true => simp [scrape_elevation, hnav, hbad, hrl]
  | false =>
    cases hrc : recheckValid env.html2 with
    | false => simp [scrape_elevation, hnav, hbad, hrl, hrc]
    | true => simp [scrape_elevation, hnav, hbad, hrl, hrc]

/-- C4 witness environment: empty markup (fails the size threshold), a
reload that does not raise, and still-empty rechecked markup. -/
def envC4 : ElevationPage :=
  { navFails := false, html1 := "", soup1 := none, tables1 := [],
    reloadFails := false, html2 := "", soup2 := none, tables2 := [],
    hourly := { button := false, fails := false, soup := none } }

/-- Witness for C4 at a concrete environment whose page and reloaded page
are both invalid. -/
theorem C4_witness :
    (scrape_elevation "mid" "url" envC4).2 = 1 ∧
    (scrape_elevation "mid" "url" envC4).1 = none := by
  have t := C4_single_reload "mid" "url" envC4 (by decide) (by decide)
  exact ⟨t.1, t.2 (Or.inr (by decide))⟩

/-! ## Export builder (`guess_snow_columns`, `tidy_and_export`)

A pandas DataFrame is modelled by its column labels; `tidy_and_export`'s
output is modelled as the manifest of files it writes (the content of the
`meta{suffix}.json` it returns). -/

/-- Python `\w` (word character), restricted to the ASCII range the
column labels use. -/
def isWordChar (c : Char) : Bool := c.isAlphanum || c == '_'

/-- Match of the word `w` at the current position: preceded by a word
boundary, `w` itself, followed by a word boundary. -/
def wordHereB (w : List Char) (prev : Option Char) (s : List Char) : Bool :=
  (match prev with
   | none => true
   | some c => !isWordChar c) &&
  hasPrefixB w s &&
  (match s.drop w.length with
   | [] => true
   | c :: _ => !isWordChar c)

/-- Scan for a whole-word occurrence of `w`, tracking the previous
character for the left boundary. -/
def searchWordB (w : List Char) : Option Char → List Char → Bool
  | prev, [] => wordHereB w prev []
  | prev, c :: t => wordHereB w prev (c :: t) || searchWordB w (some c) t

/-- Match `re.search(r"\b(snow|cm|fresh)\b", cstr.lower())`. -/
def snowColMatch (s : String) : Bool :=
  searchWordB "snow".toList none (strToLower s).toList ||
  searchWordB "cm".toList none (strToLower s).toList ||
  searchWordB "fresh".toList none (strToLower s).toList

/-- Model of `guess_snow_columns(df)`: the column labels matching the snow-word
pattern (tuple labels are modelled already joined to one string). -/
def guess_snow_columns (df : DataFrame) : List String :=
  df.cols.filter fun c => snowColMatch c

/-- The `keep` loop: the snow columns, then any date/day/time/period
column not already kept, in column order. -/
def keepCols (df : DataFrame) (snowCols : List String) : List String :=
  df.cols.foldl
    (fun keep c =>
      if (["day", "date", "time", "period"].any fun k => strContainsB (strToLower c) k) &&
          !(keep.contains c)
      then keep ++ [c] else keep)
    snowCols

/-- The files `tidy_and_export` writes and records in its returned `meta`
dict: every raw table, the snow-focused summary (only when some table had
snow columns), the dynamic and hourly record sets (only when non-empty),
and the manifest itself. -/
structure ExportManifest where
  saved_tables : List String
  snow_summary_csv : Option String := none
  snow_summary_json : Option String := none
  dynamic_forecast_csv : Option String := none
  dynamic_forecast_json : Option String := none
  hourly_forecast_csv : Option String := none
  hourly_forecast_json : Option String := none
  meta_path : String
deriving Repr, DecidableEq

/-- Model of `tidy_and_export(dfs, dynamic, hourly, elevation_suffix)`. -/
def tidy_and_export (dfs : List DataFrame) (dyn hourly : List PeriodData)
    (suffix : String) : ExportManifest :=
  let saved := (List.range dfs.length).map
    (fun i => "out_snow/table_" ++ toString (i + 1) ++ suffix ++ ".csv")
  let snowFrames := dfs.filterMap (fun df =>
    let sc := guess_snow_columns df
    if sc.isEmpty then none else some (DataFrame.mk (keepCols df sc)))
  { saved_tables := saved,
    snow_summary_csv := if snowFrames.isEmpty then none
      else some ("out_snow/snow_summary" ++ suffix ++ ".csv"),
    snow_summary_json := if snowFrames.isEmpty then none
      else some ("out_snow/snow_summary" ++ suffix ++ ".json"),
    dynamic_forecast_csv := if dyn.isEmpty then none
      else some ("out_snow/dynamic_forecast" ++ suffix ++ ".csv"),
    dynamic_forecast_json := if dyn.isEmpty then none
      else some ("out_snow/dynamic_forecast" ++ suffix ++ ".json"),
    hourly_forecast_csv := if hourly.isEmpty then none
      else some ("out_snow/hourly_forecast" ++ suffix ++ ".csv"),
    hourly_forecast_json := if hourly.isEmpty then none
      else some ("out_snow/hourly_forecast" ++ suffix ++ ".json"),
    meta_path := "out_snow/meta" ++ suffix ++ ".json" }

/-! ## The orchestrator (`main`), from the elevation loop on

`main` is modelled from the point where login has succeeded (the earlier
part only raises or logs).  The run is driven by an environment giving,
for each elevation, the page oracle `scrape_elevation` consumes, plus the
page state the legacy fallback and the last-resort fallback would see.
The result carries an explicit trace of the externally visible steps. -/

def BASE_URL : String := "https://www.snow-forecast.com/resorts/Avoriaz/12day"

def MID_URL : String := BASE_URL ++ "/mid"

def TOP_URL : String := BASE_URL ++ "/top"

def BOT_URL : String := BASE_URL ++ "/bot"

/-- One externally visible step of the run. -/
inductive RunEvent where
  /-- Event: `scrape_elevation` was invoked for this elevation. -/
  | scrapeAttempt (elevation : String)
  /-- The loop explicitly skipped this elevation (mid not successful). -/
  | skip (elevation : String)
  /-- One `tidy_and_export` call, with its filename suffix and manifest. -/
  | exportCall (suffix : String) (m : ExportManifest)
  /-- The legacy single-elevation fallback block was entered. -/
  | legacyFallbackRun
  /-- The final "no elevation data" fallback block was entered. -/
  | lastResort
deriving Repr, DecidableEq

/-- Per-elevation entry of `combined_meta['elevation_data']`. -/
structure ElevMeta where
  url : String
  html_length : Nat
  dynamic_periods : Nat
  hourly_periods : Nat
  tables_found : Nat
deriving Repr, DecidableEq

/-- Model of `combined_meta` (the wall-clock `scrape_time` field is omitted: real
time is outside the embedding). -/
structure CombinedMeta where
  elevations_scraped : List String
  elevation_data : List (String × ElevMeta)
  scrape_mode : String
deriving Repr, DecidableEq

/-- Result of one modelled run. -/
structure RunResult where
  events : List RunEvent
  data : List (String × ScrapeResult)
  mid_success : Bool
  combined : CombinedMeta
deriving Repr, DecidableEq

/-- Environment of one run: page oracles for the three elevations, the
page state the legacy fallback would re-extract (with whether that block
raises), and the page state of the last-resort fallback (likewise). -/
structure RunEnv where
  mid : ElevationPage
  top : ElevationPage
  bot : ElevationPage
  legacyFails : Bool
  legacyHtml : String
  legacySoup : Option ForecastTable
  legacyTables : List DataFrame
  legacyHourly : HourlyEnv
  finalFails : Bool
  finalHtml : String
  finalSoup : Option ForecastTable
  finalTables : List DataFrame
  finalHourly : HourlyEnv
deriving Repr, DecidableEq

/-- The loop body for `top` / `bot`: skipped when mid did not succeed;
otherwise scraped and, on success, exported with the elevation suffix. -/
def stepOther (name url : String) (page : ElevationPage) (midSuccess : Bool) :
    List RunEvent × List (String × ScrapeResult) :=
  if !midSuccess then ([RunEvent.skip name], [])
  else
    match (scrape_elevation name url page).1 with
    | some d =>
      ([RunEvent.scrapeAttempt name,
        RunEvent.exportCall ("_" ++ name)
          (tidy_and_export d.tables d.dynamic_forecast d.hourly_forecast ("_" ++ name))],
       [(name, d)])
    | none => ([RunEvent.scrapeAttempt name], [])

/-- One entry of `combined_meta['elevation_data']`. -/
def mkElevMeta (d : ScrapeResult) : ElevMeta :=
  { url := d.url, html_length := d.html_length,
    dynamic_periods := d.dynamic_forecast.length,
    hourly_periods := d.hourly_forecast.length,
    tables_found := d.tables.length }

/-- The combined manifest built after the loop. -/
def combineMeta (data : List (String × ScrapeResult)) : CombinedMeta :=
  { elevations_scraped := data.map (·.1),
    elevation_data := data.map (fun p => (p.1, mkElevMeta p.2)),
    scrape_mode := if data.isEmpty then "fallback" else "multi-elevation" }

/-- After the elevation loop: the last-resort fallback when no elevation
produced data (its export is skipped when the block raises), then the
combined manifest. -/
def postLoop (events : List RunEvent) (data : List (String × ScrapeResult))
    (midSuccess : Bool) (env : RunEnv) : RunResult :=
  let events2 :=
    if data.isEmpty then
      if env.finalFails then events ++ [RunEvent.lastResort]
      else events ++ [RunEvent.lastResort,
        RunEvent.exportCall ""
          (tidy_and_export env.finalTables
            (extract_dynamic_forecast_data env.finalSoup)
            (extract_hourly_forecast_data env.finalHourly) "")]
    else events
  { events := events2, data := data, mid_success := midSuccess,
    combined := combineMeta data }

/-- The elevation loop of `main` (order mid, top, bot) followed by the
fallback and the combined manifest.  On mid success: export `_mid`, set
the success flag, process top and bot.  On mid failure: run the legacy
fallback — if it raises, `break` out of the loop; otherwise export the
re-extracted data twice (no suffix, then `_mid`), record it as mid data
without setting the success flag, and let the loop skip top and bot. -/
def main_run (env : RunEnv) : RunResult :=
  match (scrape_elevation "mid" MID_URL env.mid).1 with
  | some d =>
    let ev1 := [RunEvent.scrapeAttempt "mid",
      RunEvent.exportCall "_mid"
        (tidy_and_export d.tables d.dynamic_forecast d.hourly_forecast "_mid")]
    let stTop := stepOther "top" TOP_URL env.top true
    let stBot := stepOther "bot" BOT_URL env.bot true
    postLoop (ev1 ++ stTop.1 ++ stBot.1) ([("mid", d)] ++ stTop.2 ++ stBot.2) true env
  | none =>
    let ev1 := [RunEvent.scrapeAttempt "mid", RunEvent.legacyFallbackRun]
    if env.legacyFails then
      postLoop ev1 [] false env
    else
      let dyn := extract_dynamic_forecast_data env.legacySoup
      let hr := extract_hourly_forecast_data env.legacyHourly
      let d : ScrapeResult :=
        { elevation := "mid", url := MID_URL, tables := env.legacyTables,
          dynamic_forecast := dyn, hourly_forecast := hr,
          html_length := env.legacyHtml.length }
      postLoop
        (ev1 ++ [RunEvent.exportCall "" (tidy_and_export env.legacyTables dyn hr ""),
                 RunEvent.exportCall "_mid" (tidy_and_export env.legacyTables dyn hr "_mid"),
                 RunEvent.skip "top", RunEvent.skip "bot"])
        [("mid", d)] false env

/-! ## Claims C5, C8, C6 -/

/-- Hourly oracle with no expand button. -/
def hourlyNone : HourlyEnv := { button := false, fails := false, soup := none }

/-- An elevation page whose navigation raises. -/
def envNavFail : ElevationPage :=
  { navFails := true, html1 := "", soup1 := none, tables1 := [],
    reloadFails := false, html2 := "", soup2 := none, tables2 := [],
    hourly := hourlyNone }

/-- C5 (counterexample) environment: mid's navigation fails and the legacy
fallback raises, so the loop breaks before reaching top/bot. -/
def envC5cx : RunEnv :=
  { mid := envNavFail, top := envNavFail, bot := envNavFail,
    legacyFails := true, legacyHtml := "", legacySoup := none,
    legacyTables := [], legacyHourly := hourlyNone,
    finalFails := true, finalHtml := "", finalSoup := none,
    finalTables := [], finalHourly := hourlyNone }

/-- C5 (counterexample): a run in which mid's scrape fails and the legacy
fallback raises — top and bot are indeed never attempted, but they are
not explicitly skipped either (the loop breaks), refuting "they are
explicitly skipped" as a universal statement. -/
theorem C5_counterexample :
    (scrape_elevation "mid" MID_URL envC5cx.mid).1 = none ∧
    RunEvent.scrapeAttempt "top" ∉ (main_run envC5cx).events ∧
    RunEvent.scrapeAttempt "bot" ∉ (main_run envC5cx).events ∧
    RunEvent.skip "top" ∉ (main_run envC5cx).events ∧
    RunEvent.skip "bot" ∉ (main_run envC5cx).events := by
  decide

/-- C5 (amended): in every run where mid's scrape fails, top and bot are
never attempted; they are explicitly skipped whenever the loop reaches
them — that is, whenever the legacy fallback completes without raising —
and when the legacy fallback raises, the loop breaks, so they are neither
attempted nor explicitly skipped. -/
theorem C5_mid_failure_gates (env : RunEnv)
    (hmid : (scrape_elevation "mid" MID_URL env.mid).1 = none) :
    RunEvent.scrapeAttempt "top" ∉ (main_run env).events ∧
    RunEvent.scrapeAttempt "bot" ∉ (main_run env).events ∧
    (env.legacyFails = false →
      RunEvent.skip "top" ∈ (main_run env).events ∧
      RunEvent.skip "bot" ∈ (main_run env).events) ∧
    (env.legacyFails = true →
      RunEvent.skip "top" ∉ (main_run env).events ∧
      RunEvent.skip "bot" ∉ (main_run env).events) := by
  cases hlf : env.legacyFails with
  | true =>
    cases hff : env.finalFails with
    | true => simp [main_run, hmid, hlf, hff, postLoop]
    | false => simp [main_run, hmid, hlf, hff, postLoop]
  | false => simp [main_run, hmid, hlf, postLoop]

/-- C5 witness environment: mid fails, legacy fallback completes. -/
def envC5w : RunEnv :=
  { mid := envNavFail, top := envNavFail, bot := envNavFail,
    legacyFails := false, legacyHtml := "", legacySoup := none,
    legacyTables := [], legacyHourly := hourlyNone,
    finalFails := true, finalHtml := "", finalSoup := none,
    finalTables := [], finalHourly := hourlyNone }

/-- Witness for C5 (amended) at a concrete failing-mid run. -/
theorem C5_witness :
    RunEvent.scrapeAttempt "top" ∉ (main_run envC5w).events ∧
    RunEvent.skip "top" ∈ (main_run envC5w).events ∧
    RunEvent.skip "bot" ∈ (main_run envC5w).events := by
  have t := C5_mid_failure_gates envC5w (by decide)
  exact ⟨t.1, (t.2.2.1 (by decide)).1, (t.2.2.1 (by decide)).2⟩

/-- C8: when mid's initial scrape fails but the legacy fallback completes
(recording mid data), the mid-success flag is still false — so top and
bot remain skipped — and the combined manifest nevertheless reports
scrape mode `multi-elevation`, since mid data exists. -/
theorem C8_legacy_mid_flag (env : RunEnv)
    (hmid : (scrape_elevation "mid" MID_URL env.mid).1 = none)
    (hleg : env.legacyFails = false) :
    (main_run env).mid_success = false ∧
    "mid" ∈ (main_run env).combined.elevations_scraped ∧
    RunEvent.skip "top" ∈ (main_run env).events ∧
    RunEvent.skip "bot" ∈ (main_run env).events ∧
    (main_run env).combined.scrape_mode = "multi-elevation" := by
  simp [main_run, hmid, hleg, postLoop, combineMeta]

/-- C8 witness environment. -/
def envC8w : RunEnv :=
  { mid := envNavFail, top := envNavFail, bot := envNavFail,
    legacyFails := false, legacyHtml := "", legacySoup := none,
    legacyTables := [], legacyHourly := hourlyNone,
    finalFails := false, finalHtml := "", finalSoup := none,
    finalTables := [], finalHourly := hourlyNone }

/-- Witness for C8 at a concrete run whose mid scrape fails and whose
legacy fallback completes. -/
theorem C8_witness :
    (main_run envC8w).mid_success = false ∧
    (main_run envC8w).combined.scrape_mode = "multi-elevation" := by
  have t := C8_legacy_mid_flag envC8w (by decide) (by decide)
  exact ⟨t.1, t.2.2.2.2⟩

/-- Suffixes of the `tidy_and_export` calls in a trace, in order. -/
def exportSuffixes (evs : List RunEvent) : List String :=
  evs.filterMap fun e =>
    match e with
    | RunEvent.exportCall s _ => some s
    | _ => none

/-- Whether the trace holds an export call with the given suffix. -/
def traceHasExportSuffix (s : String) (evs : List RunEvent) : Bool :=
  evs.any fun e =>
    match e with
    | RunEvent.exportCall s2 _ => s2 == s
    | _ => false

/-- A valid mid page: contains the `forecast-table` marker and exceeds the
150000-character threshold. -/
def bigHtml : String :=
  String.mk ("forecast-table".toList ++ List.replicate 150000 'a')

theorem bigHtml_length : bigHtml.length = 150014 := by
  show ("forecast-table".toList ++ List.replicate 150000 'a').length = 150014
  rw [List.length_append, List.length_replicate]
  have h14 : ("forecast-table".toList).length = 14 := by decide
  omega

theorem contentValid_bigHtml : contentValid bigHtml = true := by
  have hft : has_forecast_table bigHtml = true := by
    unfold has_forecast_table strContainsB
    rw [hasSubB_iff]
    exact ⟨[], List.replicate 150000 'a', rfl⟩
  have hsz : page_size_ok bigHtml = true := by
    unfold page_size_ok
    rw [bigHtml_length]
    decide
  unfold contentValid
  rw [hft, hsz]
  rfl

/-- The mid page of the C6 counterexample run: navigation succeeds and
the markup is valid first time. -/
def midPageC6 : ElevationPage :=
  { navFails := false, html1 := bigHtml, soup1 := none, tables1 := [],
    reloadFails := false, html2 := "", soup2 := none, tables2 := [],
    hourly := hourlyNone }

/-- C6 (counterexample) environment: mid succeeds, top and bot fail. -/
def envC6cx : RunEnv :=
  { mid := midPageC6, top := envNavFail, bot := envNavFail,
    legacyFails := true, legacyHtml := "", legacySoup := none,
    legacyTables := [], legacyHourly := hourlyNone,
    finalFails := true, finalHtml := "", finalSoup := none,
    finalTables := [], finalHourly := hourlyNone }

/-- The mid result of the C6 counterexample run. -/
def resC6 : ScrapeResult :=
  buildScrapeResult "mid" MID_URL bigHtml [] none hourlyNone

theorem scrape_mid_C6 :
    (scrape_elevation "mid" MID_URL envC6cx.mid).1 = some resC6 := by
  show (scrape_elevation "mid" MID_URL midPageC6).1 = some resC6
  unfold scrape_elevation
  rw [show midPageC6.navFails = false from rfl,
    show contentValid midPageC6.html1 = true from contentValid_bigHtml]
  rfl

theorem main_run_C6cx_events :
    (main_run envC6cx).events =
      [RunEvent.scrapeAttempt "mid",
       RunEvent.exportCall "_mid"
         (tidy_and_export resC6.tables resC6.dynamic_forecast
           resC6.hourly_forecast "_mid"),
       RunEvent.scrapeAttempt "top", RunEvent.scrapeAttempt "bot"] := by
  have h : (scrape_elevation "mid" MID_URL envC6cx.mid).1 = some resC6 := scrape_mid_C6
  conv_lhs => rw [main_run.eq_def, h]
  rfl

/-- C6 (counterexample): a run in which mid's data is scraped and exported
(the `_mid` set is written) but no legacy no-suffix artifact set is
written at all — the parallel legacy write only happens on the fallback
paths, not whenever mid data is exported. -/
theorem C6_counterexample :
    (scrape_elevation "mid" MID_URL envC6cx.mid).1 = some resC6 ∧
    traceHasExportSuffix "_mid" (main_run envC6cx).events = true ∧
    traceHasExportSuffix "" (main_run envC6cx).events = false := by
  refine ⟨scrape_mid_C6, ?_, ?_⟩
  · rw [main_run_C6cx_events]
    rfl
  · rw [main_run_C6cx_events]
    rfl

/-- The manifest the legacy fallback writes with the given suffix. -/
def legacyManifest (env : RunEnv) (suffix : String) : ExportManifest :=
  tidy_and_export env.legacyTables
    (extract_dynamic_forecast_data env.legacySoup)
    (extract_hourly_forecast_data env.legacyHourly) suffix

/-- C6 (amended): legacy no-suffix artifact sets are produced only by the
fallback paths.  When mid's scrape fails and the legacy fallback
completes, the run's export calls are exactly a no-suffix set and a
parallel `_mid` set built from the same tables and record sequences —
and nothing else, so no no-suffix set is ever written for top or bot.
(When mid's scrape succeeds, no no-suffix set is written at all —
the counterexample.) -/
theorem C6_legacy_only_fallback (env : RunEnv)
    (hmid : (scrape_elevation "mid" MID_URL env.mid).1 = none)
    (hleg : env.legacyFails = false) :
    exportSuffixes (main_run env).events = ["", "_mid"] ∧
    RunEvent.exportCall "" (legacyManifest env "") ∈ (main_run env).events ∧
    RunEvent.exportCall "_mid" (legacyManifest env "_mid") ∈ (main_run env).events := by
  simp [main_run, hmid, hleg, postLoop, exportSuffixes, legacyManifest]

/-- C6 witness environment: mid fails, legacy fallback completes. -/
def envC6w : RunEnv :=
  { mid := envNavFail, top := envNavFail, bot := envNavFail,
    legacyFails := false, legacyHtml := "", legacySoup := none,
    legacyTables := [], legacyHourly := hourlyNone,
    finalFails := false, finalHtml := "", finalSoup := none,
    finalTables := [], finalHourly := hourlyNone }

/-- Witness for C6 (amended) at a concrete legacy-fallback run. -/
theorem C6_witness :
    exportSuffixes (main_run envC6w).events = ["", "_mid"] :=
  (C6_legacy_only_fallback envC6w (by decide) (by decide)).1

/-! ## `ensure_login` and claim C7 -/

/-- One externally visible browser action of `ensure_login`. -/
inductive LoginAction where
  /-- The initial probe navigation to `TARGET_URL`. -/
  | gotoTarget
  /-- Navigation to the dedicated login page. -/
  | gotoLoginPage
  /-- Best-effort click on the consent banner's accept button. -/
  | clickAccept
  /-- Fill of the username field. -/
  | fillUser
  /-- Fill of the password field. -/
  | fillPass
  /-- Click on the first matching submit control. -/
  | clickSubmit (selector : String)
  /-- Fallback key-press of Enter in the password field. -/
  | pressEnter
  /-- Action `context.storage_state(path=STORAGE)`. -/
  | saveState
deriving Repr, DecidableEq

/-- Environment of one `ensure_login` call: what each page probe observes.
`probeUrl` is `page.url` after the initial navigation; `submitSel` is the
first selector of the candidate list that matches an element, if any;
`postSubmitUrl` is `page.url` after the submission wait; the remaining
fields drive the failure-analysis cascade. -/
structure LoginEnv where
  probeUrl : String
  acceptButton : Bool
  emailField : Bool
  passField : Bool
  hasUser : Bool
  hasPass : Bool
  submitSel : Option String
  postSubmitUrl : String
  errorElVisible : Option String
  formStillVisible : Bool
  loggedInFalse : Bool
  errorSelText : Option String
  errorPhrase : Option String
  lateRedirect : Bool
deriving Repr, DecidableEq

/-- Model of `ensure_login(context)`: returns success (the page handle) or the
raised error message, together with the trace of browser actions.
If `"login" not in page.url.lower()` after the probe, return immediately.
Otherwise: go to the login page, best-effort accept click, require the two
form fields and the credentials, fill both fields, click the first
matching submit candidate (else press Enter), and analyse the result:
off the login path → save state, navigate to the target and return;
else a visible error element, `logged_in:false` marker, known error
selector, known error phrase, or still-visible form each raise; with the
form gone, a late redirect succeeds and a timeout raises. -/
def ensure_login (env : LoginEnv) : Except String Unit × List LoginAction :=
  if strContainsB (strToLower env.probeUrl) "login" = false then
    (Except.ok (), [LoginAction.gotoTarget])
  else
    let tr := [LoginAction.gotoTarget, LoginAction.gotoLoginPage] ++
      (if env.acceptButton then [LoginAction.clickAccept] else [])
    if !env.emailField || !env.passField then
      (Except.error "Could not locate login form fields. UI may have changed.", tr)
    else if !env.hasUser || !env.hasPass then
      (Except.error "Missing SNOW_USER/SNOW_PASS environment variables.", tr)
    else
      let tr := tr ++ [LoginAction.fillUser, LoginAction.fillPass]
      let tr := match env.submitSel with
        | some sel => tr ++ [LoginAction.clickSubmit sel]
        | none => tr ++ [LoginAction.pressEnter]
      if strContainsB (strToLower env.postSubmitUrl) "/login" = false then
        (Except.ok (), tr ++ [LoginAction.saveState, LoginAction.gotoTarget])
      else
        match env.errorElVisible with
        | some msg => (Except.error ("Login failed: " ++ msg), tr)
        | none =>
          if env.formStillVisible then
            if env.loggedInFalse then
              (Except.error "Login failed - incorrect credentials", tr)
            else
              match env.errorSelText with
              | some msg => (Except.error ("Login failed: " ++ msg), tr)
              | none =>
                match env.errorPhrase with
                | some p => (Except.error ("Login failed: " ++ p), tr)
                | none =>
                  (Except.error
                    "Login failed - form still visible, likely invalid credentials", tr)
          else
            if env.lateRedirect then
              (Except.ok (), tr ++ [LoginAction.saveState, LoginAction.gotoTarget])
            else
              (Except.error "Login failed - no redirect detected", tr)

/-- Form-interaction actions: field fills, submit clicks, key presses. -/
def isFormAction : LoginAction → Bool
  | LoginAction.fillUser => true
  | LoginAction.fillPass => true
  | LoginAction.clickSubmit _ => true
  | LoginAction.pressEnter => true
  | _ => false

/-- C7: when the probe navigation lands on a URL that is not the login
page, `ensure_login` returns the page immediately — its whole trace is
the single probe navigation — and performs zero form-fill, submit-click,
or key-press actions. -/
theorem C7_probe_short_circuit (env : LoginEnv)
    (hprobe : strContainsB (strToLower env.probeUrl) "login" = false) :
    ensure_login env = (Except.ok (), [LoginAction.gotoTarget]) ∧
    ∀ a ∈ (ensure_login env).2, isFormAction a = false := by
  have h : ensure_login env = (Except.ok (), [LoginAction.gotoTarget]) := by
    unfold ensure_login
    rw [hprobe]
    rfl
  refine ⟨h, ?_⟩
  rw [h]
  intro a ha
  simp only [List.mem_singleton] at ha
  rw [ha]
  rfl

/-- C7 witness environment: the probe lands on the forecast page. -/
def envC7w : LoginEnv :=
  { probeUrl := "https://www.snow-forecast.com/resorts/Avoriaz/12day/mid",
    acceptButton := false, emailField := true, passField := true,
    hasUser := true, hasPass := true, submitSel := none,
    postSubmitUrl := "", errorElVisible := none, formStillVisible := false,
    loggedInFalse := false, errorSelText := none, errorPhrase := none,
    lateRedirect := false }

/-- Witness for C7 at a concrete already-authenticated probe. -/
theorem C7_witness :
    ensure_login envC7w = (Except.ok (), [LoginAction.gotoTarget]) :=
  (C7_probe_short_circuit envC7w (by decide)).1

end Snowscrape
